import Mathlib

/-!
Shallow embedding of the snow-particle subsystem of
`src/components/weather/SnowDayEffect.tsx`.

JavaScript numbers are modelled as exact rationals (`ℚ`); every call to
`Math.random()` is modelled as an explicit parameter `r` with `0 ≤ r < 1`.
The screen dimensions come from the host at mount time; the component
applies a floor (`safeWidth = max SCREEN_WIDTH 400`,
`safeHeight = max SCREEN_HEIGHT 800`), so theorems are parameterised by the
reported screen dimensions and go through `safeWidthOf` / `safeHeightOf`.
-/

namespace SnowDay

/-- The `driftDirection` field of `SnowflakeData`: `"left" | "right" | "sway"`. -/
inductive Drift where
  | left
  | right
  | sway
deriving DecidableEq

/-- Constant `EXTRA_LARGE_SIZE = 20` (SnowDayEffect.tsx line 28). -/
def EXTRA_LARGE_SIZE : ℚ := 20

/-- Constant `MIN_OPACITY = 0.7` (line 29). -/
def MIN_OPACITY : ℚ := 0.7

/-- Constant `MAX_OPACITY = 0.9` (line 30). -/
def MAX_OPACITY : ℚ := 0.9

/-- Constant `BASE_BLUR = 35` (line 31). -/
def BASE_BLUR : ℚ := 35

/-- Count `SMALL_COUNT = isSimulator ? 200 : 275` (line 16). -/
def SMALL_COUNT (sim : Bool) : ℕ := if sim then 200 else 275

/-- Count `MEDIUM_COUNT = isSimulator ? 25 : 45` (line 17). -/
def MEDIUM_COUNT (sim : Bool) : ℕ := if sim then 25 else 45

/-- Count `LARGE_COUNT = isSimulator ? 9 : 15` (line 18). -/
def LARGE_COUNT (sim : Bool) : ℕ := if sim then 9 else 15

/-- Count `XLARGE_COUNT = isSimulator ? 2 : 5` (line 19). -/
def XLARGE_COUNT (sim : Bool) : ℕ := if sim then 2 else 5

/-- Floored width `safeWidth = Math.max(SCREEN_WIDTH, 400)` (line 36). -/
def safeWidthOf (screenW : ℚ) : ℚ := max screenW 400

/-- Floored height `safeHeight = Math.max(SCREEN_HEIGHT, 800)` (line 35). -/
def safeHeightOf (screenH : ℚ) : ℚ := max screenH 800

/-- The `SnowflakeData` record (lines 247-259).  The `Animated.Value`
wrappers (`position`, `opacity`, `rotation`) are modelled by their current
numeric contents; the `animationRef` handle carries no numeric state and is
not part of the embedding. -/
structure SnowflakeData where
  id : ℕ
  x : ℚ
  y : ℚ
  size : ℚ
  opacity : ℚ
  rotation : ℚ
  speed : ℚ
  isElliptical : Bool
  blurAmount : ℚ
  active : Bool
  driftDirection : Drift
deriving DecidableEq

/-- The `Math.random()` draws consumed by the generator body
(lines 266-342), one field per call site in source order. -/
structure GenRand where
  rSize : ℚ
  rDrift : ℚ
  rSpeedFactor : ℚ
  rSpeedAdj : ℚ
  rOpacity : ℚ
  rEll : ℚ
  rX : ℚ
  rY : ℚ
  rRot : ℚ
deriving DecidableEq

/-- The `Math.random()` draws consumed by `resetFlake` (lines 428-453),
one field per call site in source order. -/
structure ResetRand where
  rX : ℚ
  rY : ℚ
  rOpacity : ℚ
  rDrift : ℚ
deriving DecidableEq

/-- Predicate for one draw: `Math.random()` returns a value in `[0, 1)`. -/
def unitRand (r : ℚ) : Prop := 0 ≤ r ∧ r < 1

instance (r : ℚ) : Decidable (unitRand r) := by
  unfold unitRand
  infer_instance

/-- All draws of a `GenRand` are in `[0, 1)`. -/
def ValidGenRand (r : GenRand) : Prop :=
  unitRand r.rSize ∧ unitRand r.rDrift ∧ unitRand r.rSpeedFactor ∧
    unitRand r.rSpeedAdj ∧ unitRand r.rOpacity ∧ unitRand r.rEll ∧
    unitRand r.rX ∧ unitRand r.rY ∧ unitRand r.rRot

instance (r : GenRand) : Decidable (ValidGenRand r) := by
  unfold ValidGenRand
  infer_instance

/-- All draws of a `ResetRand` are in `[0, 1)`. -/
def ValidResetRand (r : ResetRand) : Prop :=
  unitRand r.rX ∧ unitRand r.rY ∧ unitRand r.rOpacity ∧ unitRand r.rDrift

instance (r : ResetRand) : Decidable (ValidResetRand r) := by
  unfold ValidResetRand
  infer_instance

/-- Drift-direction assignment from a `Math.random()` draw, used both by the
generator (lines 286-294) and by `resetFlake` (lines 443-450):
`< 0.33` left, `< 0.66` right, otherwise sway. -/
def driftOf (r : ℚ) : Drift :=
  if r < 0.33 then Drift.left
  else if r < 0.66 then Drift.right
  else Drift.sway

/-- Size assignment by index bucket (lines 269-283): small `1 + r*2`,
medium `4 + r*3`, large `8 + r*2`, extra large
`EXTRA_LARGE_SIZE * (0.8 + r*0.4)`. -/
def genSize (sim : Bool) (i : ℕ) (r : ℚ) : ℚ :=
  if i < SMALL_COUNT sim then 1 + r * 2
  else if i < SMALL_COUNT sim + MEDIUM_COUNT sim then 4 + r * 3
  else if i < SMALL_COUNT sim + MEDIUM_COUNT sim + LARGE_COUNT sim then 8 + r * 2
  else EXTRA_LARGE_SIZE * (0.8 + r * 0.4)

/-- Speed factor from size (lines 296-310); JS `size >= c` is `c ≤ size`. -/
def genSpeedFactor (size r : ℚ) : ℚ :=
  if EXTRA_LARGE_SIZE * 0.8 ≤ size then 1.6 + r * 0.4
  else if 8 ≤ size then 1.0 + (0.5 * (size - 8)) / 2
  else if 4 ≤ size then 0.7 + (0.3 * (size - 4)) / 3
  else 0.4 + (0.3 * (size - 1)) / 2

/-- Opacity at generation (lines 316-320): extra-large flakes get the fixed
value `0.5`, all others `MIN_OPACITY + (MAX_OPACITY - MIN_OPACITY) * r`. -/
def genOpacity (size r : ℚ) : ℚ :=
  if EXTRA_LARGE_SIZE * 0.8 ≤ size then 0.5
  else MIN_OPACITY + (MAX_OPACITY - MIN_OPACITY) * r

/-- One particle as produced by the mount-time generator
(`Array.from({length: SNOWFLAKE_COUNT}, (_, i) => ...)`, lines 265-343),
for index `i`, safe dimensions `W`, `H`, and random draws `r`. -/
def genFlake (sim : Bool) (W H : ℚ) (i : ℕ) (r : GenRand) : SnowflakeData :=
  { id := i
    x := r.rX * W
    y := r.rY * H * (-1)
    size := genSize sim i r.rSize
    opacity := genOpacity (genSize sim i r.rSize) r.rOpacity
    rotation := r.rRot * 360
    speed := 6 * genSpeedFactor (genSize sim i r.rSize) r.rSpeedFactor +
      (r.rSpeedAdj * 1.0 - 0.5)
    isElliptical := if genSize sim i r.rSize < 8 then decide (r.rEll < 0.3) else false
    blurAmount := BASE_BLUR
    active := true
    driftDirection := driftOf r.rDrift }

/-- Opacity on recycle (lines 434-438): extra-large flakes keep the fixed
`0.5`; all others get `Math.max(0.3, Math.min(0.6, r * 0.3 + 0.3))`. -/
def resetOpacity (size r : ℚ) : ℚ :=
  if EXTRA_LARGE_SIZE * 0.8 ≤ size then 0.5
  else max 0.3 (min 0.6 (r * 0.3 + 0.3))

/-- Recycle operation `resetFlake` (lines 428-453): new position above the screen, fresh
opacity, fresh drift direction, `active := true`; all other fields kept. -/
def resetFlake (W : ℚ) (f : SnowflakeData) (r : ResetRand) : SnowflakeData :=
  { f with
    x := r.rX * W
    y := -10 - r.rY * 50
    opacity := resetOpacity f.size r.rOpacity
    driftDirection := driftOf r.rDrift
    active := true }

/-- The unmount cleanup for one flake (lines 460-468): the `active` flag is
cleared (the stopped `animationRef` handle carries no modelled state). -/
def cleanupFlake (f : SnowflakeData) : SnowflakeData :=
  { f with active := false }

/-- The cycle-completion callback passed to
`flake.animationRef.current.start` (lines 417-424): if the flake is still
active it is reset (and a new cycle starts); otherwise nothing happens. -/
def onCycleComplete (W : ℚ) (f : SnowflakeData) (r : ResetRand) : SnowflakeData :=
  if f.active then resetFlake W f r else f

/-- Fall duration `fallDuration = ((safeHeight + 20 - baseY) / flake.speed) * 50`
(line 354), where `baseY` is the flake's position at cycle start. -/
def fallDurationOf (H : ℚ) (f : SnowflakeData) : ℚ :=
  ((H + 20 - f.y) / f.speed) * 50

/-- Duration of the horizontal animation built in the `switch` of
`animateFlake` (lines 359-401): the left/right `Animated.timing` runs for
`fallDuration`; the sway branch is an `Animated.sequence` of two 2000 ms
timings. -/
def horizDurationOf (d : Drift) (fallDur : ℚ) : ℚ :=
  match d with
  | Drift.left => fallDur
  | Drift.right => fallDur
  | Drift.sway => 2000 + 2000

/-- Time at which the `Animated.parallel([fallAnimation,
horizontalAnimation])` composite of lines 412-415 invokes its start
callback: React Native's `parallel` fires the callback once every child
animation has ended, i.e. at the maximum of the two durations. -/
def completionTime (d : Drift) (fallDur : ℚ) : ℚ :=
  max fallDur (horizDurationOf d fallDur)

/-- The `toValue` of the horizontal `Animated.timing` for the left and
right drift branches (lines 362-379):
left `baseX - min(safeWidth/4, baseX) * (size/7)`,
right `baseX + min(safeWidth/4, safeWidth - baseX) * (size/7)`.
The sway branch is a two-step sequence whose final `toValue` is `baseX`. -/
def driftTargetX (W : ℚ) (d : Drift) (size baseX : ℚ) : ℚ :=
  match d with
  | Drift.left => baseX - min (W / 4) baseX * (size / 7)
  | Drift.right => baseX + min (W / 4) (W - baseX) * (size / 7)
  | Drift.sway => baseX

/-- Value of an `Animated.timing` with `Easing.linear` at eased progress
`p ∈ [0, 1]`: `start + p * (toValue - start)`. -/
def timingAt (start target p : ℚ) : ℚ := start + p * (target - start)

/-- The size classes of the generator's index buckets (lines 269-283). -/
inductive SizeClass where
  | small
  | medium
  | large
  | xlarge
deriving DecidableEq

/-- Which size class the generator assigns to index `i` (same index
thresholds as `genSize`). -/
def sizeClassOf (sim : Bool) (i : ℕ) : SizeClass :=
  if i < SMALL_COUNT sim then SizeClass.small
  else if i < SMALL_COUNT sim + MEDIUM_COUNT sim then SizeClass.medium
  else if i < SMALL_COUNT sim + MEDIUM_COUNT sim + LARGE_COUNT sim then SizeClass.large
  else SizeClass.xlarge

/-- Lower bound of the sizes the generator can produce for a class. -/
def classLo : SizeClass → ℚ
  | SizeClass.small => 1
  | SizeClass.medium => 4
  | SizeClass.large => 8
  | SizeClass.xlarge => 16

/-- Strict upper bound of the sizes the generator can produce for a class. -/
def classHi : SizeClass → ℚ
  | SizeClass.small => 3
  | SizeClass.medium => 7
  | SizeClass.large => 10
  | SizeClass.xlarge => 24

/-- A size lies in one of the four generator ranges
`[1,3) ∪ [4,7) ∪ [8,10) ∪ [16,24)`. -/
def sizeInClass (s : ℚ) : Prop :=
  (1 ≤ s ∧ s < 3) ∨ (4 ≤ s ∧ s < 7) ∨ (8 ≤ s ∧ s < 10) ∨ (16 ≤ s ∧ s < 24)

/-- States of one particle reachable in a mounted component: generated at
mount, then any interleaving of in-cycle animation steps (the parallel
animation of `animateFlake` writes only `position.x` and `position.y`) and
fired cycle-completion callbacks. -/
inductive Reachable (sim : Bool) (W H : ℚ) : SnowflakeData → Prop where
  | gen (i : ℕ) (r : GenRand) (hr : ValidGenRand r) :
      Reachable sim W H (genFlake sim W H i r)
  | fall (f : SnowflakeData) (a b : ℚ) (hf : Reachable sim W H f) :
      Reachable sim W H { f with x := a, y := b }
  | recycle (f : SnowflakeData) (r : ResetRand) (hr : ValidResetRand r)
      (hf : Reachable sim W H f) :
      Reachable sim W H (onCycleComplete W f r)

/-! ## Helper lemmas -/

/-- The clamp `max 0.3 (min 0.6 z)` always lands in `[0.3, 0.6]`, so the
recycle opacity is in `[0.3, 0.6]` for non-extra-large flakes and `0.5`
for extra-large ones; in particular it is always in `[0, 1]`. -/
theorem resetOpacity_unit (size r : ℚ) :
    0 ≤ resetOpacity size r ∧ resetOpacity size r ≤ 1 := by
  unfold resetOpacity
  split
  · norm_num
  · constructor
    · have h : (0.3 : ℚ) ≤ max 0.3 (min 0.6 (r * 0.3 + 0.3)) := le_max_left _ _
      linarith
    · have h : max (0.3 : ℚ) (min 0.6 (r * 0.3 + 0.3)) ≤ 0.6 :=
        max_le (by norm_num) (min_le_left _ _)
      linarith

/-- A linearly eased value between two endpoints stays between any common
bounds of the endpoints. -/
theorem timingAt_bounds (lo hi a b p : ℚ) (ha1 : lo ≤ a) (ha2 : a ≤ hi)
    (hb1 : lo ≤ b) (hb2 : b ≤ hi) (hp0 : 0 ≤ p) (hp1 : p ≤ 1) :
    lo ≤ timingAt a b p ∧ timingAt a b p ≤ hi := by
  unfold timingAt
  constructor <;> nlinarith

/-! ## Claim theorems -/

/-- C2: after the unmount cleanup has cleared the `active` flag, a pending
cycle-completion callback that fires later leaves the particle's whole
state (in particular its position and opacity) unchanged: the `if
(flake.active)` guard suppresses the mutation. -/
theorem unmount_suppresses_pending_callback (W : ℚ) (f : SnowflakeData) (r : ResetRand) :
    onCycleComplete W (cleanupFlake f) r = cleanupFlake f := by
  simp [onCycleComplete, cleanupFlake]

/-- C4: after `resetFlake`, the particle's `y` is strictly negative, lies
in `[-60, -10]`, and its `active` flag is `true`. -/
theorem reset_puts_flake_above_screen (W : ℚ) (f : SnowflakeData) (r : ResetRand)
    (h0 : 0 ≤ r.rY) (h1 : r.rY < 1) :
    (resetFlake W f r).y < 0 ∧ -60 ≤ (resetFlake W f r).y ∧
      (resetFlake W f r).y ≤ -10 ∧ (resetFlake W f r).active = true := by
  refine ⟨?_, ?_, ?_, rfl⟩ <;> simp only [resetFlake] <;> nlinarith

/-- Witness for C4 at `r.rY = 1/2`, acting on a concretely generated flake. -/
theorem reset_puts_flake_above_screen_witness :
    (resetFlake 400 (genFlake false 400 800 0 ⟨0, 0, 0, 0, 0, 0, 0, 0, 0⟩)
        ⟨0, 1/2, 0, 0⟩).y < 0 ∧
      -60 ≤ (resetFlake 400 (genFlake false 400 800 0 ⟨0, 0, 0, 0, 0, 0, 0, 0, 0⟩)
        ⟨0, 1/2, 0, 0⟩).y ∧
      (resetFlake 400 (genFlake false 400 800 0 ⟨0, 0, 0, 0, 0, 0, 0, 0, 0⟩)
        ⟨0, 1/2, 0, 0⟩).y ≤ -10 ∧
      (resetFlake 400 (genFlake false 400 800 0 ⟨0, 0, 0, 0, 0, 0, 0, 0, 0⟩)
        ⟨0, 1/2, 0, 0⟩).active = true :=
  reset_puts_flake_above_screen 400 _ _ (by norm_num) (by norm_num)

/-- C10: `resetFlake` writes only `position`, `opacity`, `driftDirection`
and `active`; the `id`, `size`, `speed`, `rotation`, `isElliptical` and
`blurAmount` fields are returned unchanged (rotation is never
re-randomized on recycle). -/
theorem reset_frame_preserves_fields (W : ℚ) (f : SnowflakeData) (r : ResetRand) :
    (resetFlake W f r).id = f.id ∧ (resetFlake W f r).size = f.size ∧
      (resetFlake W f r).speed = f.speed ∧ (resetFlake W f r).rotation = f.rotation ∧
      (resetFlake W f r).isElliptical = f.isElliptical ∧
      (resetFlake W f r).blurAmount = f.blurAmount :=
  ⟨rfl, rfl, rfl, rfl, rfl, rfl⟩

/-- C5 counterexample: `Math.random()` can return `0`, and the generator
then places the particle at `y = 0 * safeHeight * -1 = 0`, which is not
strictly less than `0`.  (Index `0` is a valid small-class index and all
draws of this `GenRand` lie in `[0,1)`.) -/
theorem initial_flake_y_zero_counterexample :
    ValidGenRand ⟨0, 0, 0, 0, 0, 0, 0, 0, 0⟩ ∧
      (genFlake false 400 800 0 ⟨0, 0, 0, 0, 0, 0, 0, 0, 0⟩).y = 0 ∧
      ¬((genFlake false 400 800 0 ⟨0, 0, 0, 0, 0, 0, 0, 0, 0⟩).y < 0) := by
  refine ⟨by decide, ?_, ?_⟩ <;> norm_num [genFlake]

/-- C5 amended: every particle produced by initial generation has
`y ≤ 0` — strictly negative whenever its vertical draw is nonzero — and
`x ∈ [0, safeWidth)` (in particular `x ∈ [0, safeWidth]`). -/
theorem initial_flake_position_bounds (sim : Bool) (sw sh : ℚ) (i : ℕ)
    (r : GenRand) (hr : ValidGenRand r) :
    (genFlake sim (safeWidthOf sw) (safeHeightOf sh) i r).y ≤ 0 ∧
      (0 < r.rY → (genFlake sim (safeWidthOf sw) (safeHeightOf sh) i r).y < 0) ∧
      0 ≤ (genFlake sim (safeWidthOf sw) (safeHeightOf sh) i r).x ∧
      (genFlake sim (safeWidthOf sw) (safeHeightOf sh) i r).x ≤ safeWidthOf sw := by
  obtain ⟨-, -, -, -, -, -, ⟨hx0, hx1⟩, ⟨hy0, -⟩, -⟩ := hr
  have hW : (400 : ℚ) ≤ safeWidthOf sw := le_max_right _ _
  have hH : (800 : ℚ) ≤ safeHeightOf sh := le_max_right _ _
  simp only [genFlake]
  refine ⟨by nlinarith, fun h => by nlinarith, by nlinarith, by nlinarith⟩

/-- Witness for C5 amended at screen 390×780 (safe dimensions 400×800),
index `0`, all draws `1/2`. -/
theorem initial_flake_position_bounds_witness :
    (genFlake false (safeWidthOf 390) (safeHeightOf 780) 0
        ⟨1/2, 1/2, 1/2, 1/2, 1/2, 1/2, 1/2, 1/2, 1/2⟩).y ≤ 0 ∧
      (0 < (1/2 : ℚ) → (genFlake false (safeWidthOf 390) (safeHeightOf 780) 0
        ⟨1/2, 1/2, 1/2, 1/2, 1/2, 1/2, 1/2, 1/2, 1/2⟩).y < 0) ∧
      0 ≤ (genFlake false (safeWidthOf 390) (safeHeightOf 780) 0
        ⟨1/2, 1/2, 1/2, 1/2, 1/2, 1/2, 1/2, 1/2, 1/2⟩).x ∧
      (genFlake false (safeWidthOf 390) (safeHeightOf 780) 0
        ⟨1/2, 1/2, 1/2, 1/2, 1/2, 1/2, 1/2, 1/2, 1/2⟩).x ≤ safeWidthOf 390 :=
  initial_flake_position_bounds false 390 780 0 _ (by norm_num [ValidGenRand, unitRand])

/-- C6 counterexample: at draw `0` a small-class index yields size exactly
`1`, which is not strictly inside the stated open range `(1, 3)`. -/
theorem generated_size_boundary_counterexample :
    sizeClassOf false 0 = SizeClass.small ∧
      ValidGenRand ⟨0, 0, 0, 0, 0, 0, 0, 0, 0⟩ ∧
      (genFlake false 400 800 0 ⟨0, 0, 0, 0, 0, 0, 0, 0, 0⟩).size = 1 ∧
      ¬(1 < (genFlake false 400 800 0 ⟨0, 0, 0, 0, 0, 0, 0, 0, 0⟩).size ∧
        (genFlake false 400 800 0 ⟨0, 0, 0, 0, 0, 0, 0, 0, 0⟩).size < 3) := by
  refine ⟨by decide, by decide, ?_, ?_⟩ <;>
    norm_num [genFlake, genSize, SMALL_COUNT]

/-- C6 amended: every generated particle's size lies in the half-open
range of its index's size class: small `[1,3)`, medium `[4,7)`, large
`[8,10)`, extra-large `[16,24)` (the lower endpoint is attained exactly
when the size draw is `0`). -/
theorem generated_size_in_class_range (sim : Bool) (W H : ℚ) (i : ℕ)
    (r : GenRand) (hr : ValidGenRand r) :
    classLo (sizeClassOf sim i) ≤ (genFlake sim W H i r).size ∧
      (genFlake sim W H i r).size < classHi (sizeClassOf sim i) := by
  obtain ⟨⟨hs0, hs1⟩, -⟩ := hr
  simp only [genFlake, genSize, sizeClassOf]
  split_ifs <;> simp only [classLo, classHi, EXTRA_LARGE_SIZE] <;>
    constructor <;> nlinarith

/-- Witness for C6 amended: extra-large index `335` (non-simulator), all
draws `1/2`, giving size `20 * (0.8 + 0.2) = 20 ∈ [16, 24)`. -/
theorem generated_size_in_class_range_witness :
    classLo (sizeClassOf false 335) ≤
        (genFlake false 400 800 335 ⟨1/2, 1/2, 1/2, 1/2, 1/2, 1/2, 1/2, 1/2, 1/2⟩).size ∧
      (genFlake false 400 800 335 ⟨1/2, 1/2, 1/2, 1/2, 1/2, 1/2, 1/2, 1/2, 1/2⟩).size <
        classHi (sizeClassOf false 335) :=
  generated_size_in_class_range false 400 800 335 _ (by norm_num [ValidGenRand, unitRand])

/-- C7 counterexample: recycling a small flake (size `2`, generated at
index `0` with draw `1/2`) with opacity draw `0` assigns opacity `0.3`,
which is outside the generation band `[0.7, 0.9]`. -/
theorem reset_opacity_band_counterexample :
    (genFlake false 400 800 0 ⟨1/2, 0, 0, 0, 0, 0, 0, 0, 0⟩).size = 2 ∧
      (resetFlake 400 (genFlake false 400 800 0 ⟨1/2, 0, 0, 0, 0, 0, 0, 0, 0⟩)
        ⟨0, 0, 0, 0⟩).opacity = 3/10 ∧
      ¬(MIN_OPACITY ≤ (resetFlake 400 (genFlake false 400 800 0
          ⟨1/2, 0, 0, 0, 0, 0, 0, 0, 0⟩) ⟨0, 0, 0, 0⟩).opacity ∧
        (resetFlake 400 (genFlake false 400 800 0 ⟨1/2, 0, 0, 0, 0, 0, 0, 0, 0⟩)
          ⟨0, 0, 0, 0⟩).opacity ≤ MAX_OPACITY) := by
  have hsize : (genFlake false 400 800 0 ⟨1/2, 0, 0, 0, 0, 0, 0, 0, 0⟩).size = 2 := by
    norm_num [genFlake, genSize, SMALL_COUNT]
  have hop : (resetFlake 400 (genFlake false 400 800 0 ⟨1/2, 0, 0, 0, 0, 0, 0, 0, 0⟩)
      ⟨0, 0, 0, 0⟩).opacity = 3/10 := by
    simp only [resetFlake, resetOpacity, hsize]
    norm_num [EXTRA_LARGE_SIZE]
  exact ⟨hsize, hop, by rw [hop]; norm_num [MIN_OPACITY, MAX_OPACITY]⟩

/-- C7 amended: on recycle, an extra-large flake (size `≥ 16`) gets the
fixed opacity `0.5` — the same fixed value generation assigns to
extra-large flakes — while every other flake gets a fresh value in the
band `[0.3, 0.6)`, not the generation band `[0.7, 0.9]`. -/
theorem reset_opacity_bands (W : ℚ) (f : SnowflakeData) (r : ResetRand)
    (h0 : 0 ≤ r.rOpacity) (h1 : r.rOpacity < 1) :
    (16 ≤ f.size →
      (resetFlake W f r).opacity = 1/2 ∧ ∀ s : ℚ, genOpacity f.size s = 1/2) ∧
    (f.size < 16 →
      3/10 ≤ (resetFlake W f r).opacity ∧ (resetFlake W f r).opacity < 3/5) := by
  have h16 : EXTRA_LARGE_SIZE * (0.8 : ℚ) = 16 := by norm_num [EXTRA_LARGE_SIZE]
  constructor
  · intro hs
    constructor
    · simp only [resetFlake, resetOpacity, h16, if_pos hs]
      norm_num
    · intro s
      simp only [genOpacity, h16, if_pos hs]
      norm_num
  · intro hs
    have hs' : ¬(EXTRA_LARGE_SIZE * (0.8 : ℚ) ≤ f.size) := by rw [h16]; linarith
    simp only [resetFlake, resetOpacity, if_neg hs']
    have hlo : (3/10 : ℚ) ≤ max 0.3 (min 0.6 (r.rOpacity * 0.3 + 0.3)) := by
      have := le_max_left (0.3 : ℚ) (min 0.6 (r.rOpacity * 0.3 + 0.3))
      linarith
    have hhi : max (0.3 : ℚ) (min 0.6 (r.rOpacity * 0.3 + 0.3)) < 3/5 := by
      have hm : min (0.6 : ℚ) (r.rOpacity * 0.3 + 0.3) ≤ r.rOpacity * 0.3 + 0.3 :=
        min_le_right _ _
      have : r.rOpacity * (0.3 : ℚ) + 0.3 < 3/5 := by nlinarith
      exact max_lt (by norm_num) (lt_of_le_of_lt hm this)
    exact ⟨hlo, hhi⟩

/-- Witness for C7 amended: small flake of size `2`, opacity draw `1/2`. -/
theorem reset_opacity_bands_witness :
    (16 ≤ (genFlake false 400 800 0 ⟨1/2, 0, 0, 0, 0, 0, 0, 0, 0⟩).size →
      (resetFlake 400 (genFlake false 400 800 0 ⟨1/2, 0, 0, 0, 0, 0, 0, 0, 0⟩)
          ⟨0, 0, 1/2, 0⟩).opacity = 1/2 ∧
        ∀ s : ℚ, genOpacity (genFlake false 400 800 0
          ⟨1/2, 0, 0, 0, 0, 0, 0, 0, 0⟩).size s = 1/2) ∧
    ((genFlake false 400 800 0 ⟨1/2, 0, 0, 0, 0, 0, 0, 0, 0⟩).size < 16 →
      3/10 ≤ (resetFlake 400 (genFlake false 400 800 0 ⟨1/2, 0, 0, 0, 0, 0, 0, 0, 0⟩)
          ⟨0, 0, 1/2, 0⟩).opacity ∧
        (resetFlake 400 (genFlake false 400 800 0 ⟨1/2, 0, 0, 0, 0, 0, 0, 0, 0⟩)
          ⟨0, 0, 1/2, 0⟩).opacity < 3/5) :=
  reset_opacity_bands 400 _ _ (by norm_num) (by norm_num)

/-- The concrete particle for the C3 counterexample: extra-large index
`335`, size draw `0` (size `16`), drift draw `0.7` (sway), speed-factor
draw `0.9` and adjustment draw `0.74` (speed `12`), vertical draw `1/40`
(`y = -20`). -/
def c3Flake : SnowflakeData :=
  genFlake false 400 800 335 ⟨0, 7/10, 9/10, 37/50, 0, 0, 0, 1/40, 0⟩

/-- C3 counterexample: a sway-drifting extra-large flake with speed `12`
starting at `y = -20` has fall duration `3500` ms, but the
`Animated.parallel` composite only invokes its completion callback when
the 4000 ms sway sequence has also ended, i.e. at `4000 ≠ 3500`. -/
theorem sway_cycle_outlasts_fall :
    c3Flake.driftDirection = Drift.sway ∧
      fallDurationOf 800 c3Flake = 3500 ∧
      completionTime c3Flake.driftDirection (fallDurationOf 800 c3Flake) = 4000 ∧
      completionTime c3Flake.driftDirection (fallDurationOf 800 c3Flake) ≠
        fallDurationOf 800 c3Flake := by
  have hd : c3Flake.driftDirection = Drift.sway := by
    norm_num [c3Flake, genFlake, driftOf]
  have hy : c3Flake.y = -20 := by norm_num [c3Flake, genFlake]
  have hspeed : c3Flake.speed = 12 := by
    have hsize : genSize false 335 0 = 16 := by
      norm_num [genSize, SMALL_COUNT, MEDIUM_COUNT, LARGE_COUNT, EXTRA_LARGE_SIZE]
    norm_num [c3Flake, genFlake, hsize, genSpeedFactor, EXTRA_LARGE_SIZE]
  have hfd : fallDurationOf 800 c3Flake = 3500 := by
    simp only [fallDurationOf, hy, hspeed]
    norm_num
  refine ⟨hd, hfd, ?_, ?_⟩ <;>
    simp only [hd, hfd, completionTime, horizDurationOf] <;> norm_num

/-- C3 amended: the cycle-completion callback of `Animated.parallel` fires
once both the fall and the horizontal animation have ended, i.e. at
`max(fallDuration, horizontal duration)`.  This equals the fall duration
exactly when the drift direction is left or right (whose horizontal timing
shares the fall duration) or when the fall duration is at least the
4000 ms total of the sway sequence. -/
theorem cycle_completion_time_characterization (H : ℚ) (f : SnowflakeData) :
    completionTime f.driftDirection (fallDurationOf H f) = fallDurationOf H f ↔
      (f.driftDirection = Drift.left ∨ f.driftDirection = Drift.right ∨
        4000 ≤ fallDurationOf H f) := by
  cases hd : f.driftDirection <;>
    simp [completionTime, horizDurationOf, hd, max_eq_left_iff]
  norm_num

/-- C1 counterexample: a large-class flake (size `9`, produced by the
generator at index `330` with draw `1/2`) drifting left from
`x = 100 ∈ [0, 400]` gets drift target
`100 - min(100, 100) * (9/7) = -200/7 < 0`: under linear easing the end of
the drift (eased progress `1`) lies outside `[0, safeWidth]`, so the
particle exits the horizontal bounds before its fall completes. -/
theorem large_flake_drift_exits_bounds :
    genSize false 330 (1/2) = 9 ∧
      (0 ≤ (100 : ℚ) ∧ (100 : ℚ) ≤ 400) ∧
      driftTargetX 400 Drift.left 9 100 = -200/7 ∧
      timingAt 100 (driftTargetX 400 Drift.left 9 100) 1 < 0 := by
  refine ⟨?_, by norm_num, ?_, ?_⟩
  · norm_num [genSize, SMALL_COUNT, MEDIUM_COUNT, LARGE_COUNT]
  · simp only [driftTargetX]
    norm_num
  · simp only [driftTargetX, timingAt]
    norm_num

/-- C1 amended: for a small- or medium-class particle (size `≤ 7`) whose
drift direction for the current cycle is left or right, starting the cycle
from any `x ∈ [0, safeWidth]`, every linearly eased position between the
start `x` and the drift target — hence the particle's `x` at every time
before the fall completes — stays in `[0, safeWidth]`.  (Large and
extra-large particles can leave the bounds, since their drift multiplier
`size/7` exceeds `1`.) -/
theorem small_medium_drift_stays_in_bounds (sw : ℚ) (f : SnowflakeData) (p : ℚ)
    (hd : f.driftDirection = Drift.left ∨ f.driftDirection = Drift.right)
    (hs0 : 0 ≤ f.size) (hs7 : f.size ≤ 7)
    (hx0 : 0 ≤ f.x) (hxW : f.x ≤ safeWidthOf sw)
    (hp0 : 0 ≤ p) (hp1 : p ≤ 1) :
    0 ≤ timingAt f.x (driftTargetX (safeWidthOf sw) f.driftDirection f.size f.x) p ∧
      timingAt f.x (driftTargetX (safeWidthOf sw) f.driftDirection f.size f.x) p ≤
        safeWidthOf sw := by
  have hW : (400 : ℚ) ≤ safeWidthOf sw := le_max_right _ _
  have hW4 : (0 : ℚ) ≤ safeWidthOf sw / 4 := by linarith
  have hfrac0 : (0 : ℚ) ≤ f.size / 7 := by linarith
  have hfrac1 : f.size / 7 ≤ 1 := by linarith
  have htgt : 0 ≤ driftTargetX (safeWidthOf sw) f.driftDirection f.size f.x ∧
      driftTargetX (safeWidthOf sw) f.driftDirection f.size f.x ≤ safeWidthOf sw := by
    rcases hd with hd | hd <;> rw [hd] <;> simp only [driftTargetX]
    · have hm0 : (0 : ℚ) ≤ min (safeWidthOf sw / 4) f.x := le_min hW4 hx0
      have hmx : min (safeWidthOf sw / 4) f.x ≤ f.x := min_le_right _ _
      constructor <;> nlinarith
    · have hm0 : (0 : ℚ) ≤ min (safeWidthOf sw / 4) (safeWidthOf sw - f.x) :=
        le_min hW4 (by linarith)
      have hmx : min (safeWidthOf sw / 4) (safeWidthOf sw - f.x) ≤ safeWidthOf sw - f.x :=
        min_le_right _ _
      constructor <;> nlinarith
  exact timingAt_bounds 0 (safeWidthOf sw) _ _ p hx0 hxW htgt.1 htgt.2 hp0 hp1

/-- Witness for C1 amended: screen width `400`, a medium flake of size `5`
drifting right from `x = 100`, at eased progress `1/2`. -/
theorem small_medium_drift_stays_in_bounds_witness :
    0 ≤ timingAt (SnowflakeData.mk 7 100 50 5 (4/5) 90 6 false 35 true
        Drift.right).x
        (driftTargetX (safeWidthOf 400) (SnowflakeData.mk 7 100 50 5 (4/5) 90 6
          false 35 true Drift.right).driftDirection
          (SnowflakeData.mk 7 100 50 5 (4/5) 90 6 false 35 true Drift.right).size
          (SnowflakeData.mk 7 100 50 5 (4/5) 90 6 false 35 true Drift.right).x) (1/2) ∧
      timingAt (SnowflakeData.mk 7 100 50 5 (4/5) 90 6 false 35 true Drift.right).x
        (driftTargetX (safeWidthOf 400) (SnowflakeData.mk 7 100 50 5 (4/5) 90 6
          false 35 true Drift.right).driftDirection
          (SnowflakeData.mk 7 100 50 5 (4/5) 90 6 false 35 true Drift.right).size
          (SnowflakeData.mk 7 100 50 5 (4/5) 90 6 false 35 true Drift.right).x) (1/2) ≤
        safeWidthOf 400 :=
  small_medium_drift_stays_in_bounds 400 _ (1/2) (Or.inr rfl) (by norm_num)
    (by norm_num) (by norm_num) (by norm_num [safeWidthOf]) (by norm_num) (by norm_num)

/-- Opacity at generation is `0.5` for extra-large flakes and in
`[MIN_OPACITY, MAX_OPACITY)` otherwise; in particular always in `[0, 1]`. -/
theorem genOpacity_unit (size r : ℚ) (h0 : 0 ≤ r) (h1 : r < 1) :
    0 ≤ genOpacity size r ∧ genOpacity size r ≤ 1 := by
  unfold genOpacity
  split
  · norm_num
  · norm_num [MIN_OPACITY, MAX_OPACITY]
    constructor <;> nlinarith

/-- C8: in every particle state reachable in a mounted component —
generated at mount, then any interleaving of in-cycle position animation
and fired cycle-completion callbacks — the opacity lies in `[0, 1]` and
the rotation in `[0, 360)`. -/
theorem opacity_rotation_invariant (sim : Bool) (W H : ℚ) (f : SnowflakeData)
    (h : Reachable sim W H f) :
    (0 ≤ f.opacity ∧ f.opacity ≤ 1) ∧ (0 ≤ f.rotation ∧ f.rotation < 360) := by
  induction h with
  | gen i r hr =>
    obtain ⟨-, -, -, -, ⟨ho0, ho1⟩, -, -, -, ⟨hr0, hr1⟩⟩ := hr
    refine ⟨genOpacity_unit _ _ ho0 ho1, ?_, ?_⟩ <;>
      simp only [genFlake] <;> nlinarith
  | fall f a b hf ih => simpa using ih
  | recycle f r hr hf ih =>
    unfold onCycleComplete
    split
    · exact ⟨resetOpacity_unit f.size r.rOpacity, ih.2⟩
    · exact ih

/-- Witness for C8: the freshly generated flake at index `0` with all
draws `1/2` is reachable and satisfies the invariant. -/
theorem opacity_rotation_invariant_witness :
    (0 ≤ (genFlake false 400 800 0 ⟨1/2, 1/2, 1/2, 1/2, 1/2, 1/2, 1/2, 1/2, 1/2⟩).opacity ∧
        (genFlake false 400 800 0 ⟨1/2, 1/2, 1/2, 1/2, 1/2, 1/2, 1/2, 1/2, 1/2⟩).opacity ≤ 1) ∧
      (0 ≤ (genFlake false 400 800 0 ⟨1/2, 1/2, 1/2, 1/2, 1/2, 1/2, 1/2, 1/2, 1/2⟩).rotation ∧
        (genFlake false 400 800 0 ⟨1/2, 1/2, 1/2, 1/2, 1/2, 1/2, 1/2, 1/2, 1/2⟩).rotation < 360) :=
  opacity_rotation_invariant false 400 800 _
    (Reachable.gen 0 _ (by norm_num [ValidGenRand, unitRand]))

/-- C9: recycling a particle twice in a row, with no intervening fall,
leaves it in a valid state: size still in its class range, opacity in
`[0, 1]`, rotation in `[0, 360)`, `y < 0`, `x ∈ [0, safeWidth]`, and
`active = true`. -/
theorem double_reset_valid_state (sw : ℚ) (f : SnowflakeData) (r1 r2 : ResetRand)
    (hsz : sizeInClass f.size) (hrot0 : 0 ≤ f.rotation) (hrot1 : f.rotation < 360)
    (h2 : ValidResetRand r2) :
    sizeInClass (resetFlake (safeWidthOf sw) (resetFlake (safeWidthOf sw) f r1) r2).size ∧
      0 ≤ (resetFlake (safeWidthOf sw) (resetFlake (safeWidthOf sw) f r1) r2).opacity ∧
      (resetFlake (safeWidthOf sw) (resetFlake (safeWidthOf sw) f r1) r2).opacity ≤ 1 ∧
      0 ≤ (resetFlake (safeWidthOf sw) (resetFlake (safeWidthOf sw) f r1) r2).rotation ∧
      (resetFlake (safeWidthOf sw) (resetFlake (safeWidthOf sw) f r1) r2).rotation < 360 ∧
      (resetFlake (safeWidthOf sw) (resetFlake (safeWidthOf sw) f r1) r2).y < 0 ∧
      0 ≤ (resetFlake (safeWidthOf sw) (resetFlake (safeWidthOf sw) f r1) r2).x ∧
      (resetFlake (safeWidthOf sw) (resetFlake (safeWidthOf sw) f r1) r2).x ≤
        safeWidthOf sw ∧
      (resetFlake (safeWidthOf sw) (resetFlake (safeWidthOf sw) f r1) r2).active = true := by
  obtain ⟨⟨hx0, hx1⟩, ⟨hy0, hy1⟩, -, -⟩ := h2
  have hW : (400 : ℚ) ≤ safeWidthOf sw := le_max_right _ _
  refine ⟨hsz, (resetOpacity_unit _ _).1, (resetOpacity_unit _ _).2,
    hrot0, hrot1, ?_, ?_, ?_, rfl⟩ <;> simp only [resetFlake] <;> nlinarith

/-- Witness for C9: a generated medium flake (index `280`, all draws
`1/2`, size `5.5`) reset twice with draws `1/2`. -/
theorem double_reset_valid_state_witness :
    sizeInClass (resetFlake (safeWidthOf 400) (resetFlake (safeWidthOf 400)
        (genFlake false 400 800 280 ⟨1/2, 1/2, 1/2, 1/2, 1/2, 1/2, 1/2, 1/2, 1/2⟩)
        ⟨1/2, 1/2, 1/2, 1/2⟩) ⟨1/2, 1/2, 1/2, 1/2⟩).size ∧
      0 ≤ (resetFlake (safeWidthOf 400) (resetFlake (safeWidthOf 400)
        (genFlake false 400 800 280 ⟨1/2, 1/2, 1/2, 1/2, 1/2, 1/2, 1/2, 1/2, 1/2⟩)
        ⟨1/2, 1/2, 1/2, 1/2⟩) ⟨1/2, 1/2, 1/2, 1/2⟩).opacity ∧
      (resetFlake (safeWidthOf 400) (resetFlake (safeWidthOf 400)
        (genFlake false 400 800 280 ⟨1/2, 1/2, 1/2, 1/2, 1/2, 1/2, 1/2, 1/2, 1/2⟩)
        ⟨1/2, 1/2, 1/2, 1/2⟩) ⟨1/2, 1/2, 1/2, 1/2⟩).opacity ≤ 1 ∧
      0 ≤ (resetFlake (safeWidthOf 400) (resetFlake (safeWidthOf 400)
        (genFlake false 400 800 280 ⟨1/2, 1/2, 1/2, 1/2, 1/2, 1/2, 1/2, 1/2, 1/2⟩)
        ⟨1/2, 1/2, 1/2, 1/2⟩) ⟨1/2, 1/2, 1/2, 1/2⟩).rotation ∧
      (resetFlake (safeWidthOf 400) (resetFlake (safeWidthOf 400)
        (genFlake false 400 800 280 ⟨1/2, 1/2, 1/2, 1/2, 1/2, 1/2, 1/2, 1/2, 1/2⟩)
        ⟨1/2, 1/2, 1/2, 1/2⟩) ⟨1/2, 1/2, 1/2, 1/2⟩).rotation < 360 ∧
      (resetFlake (safeWidthOf 400) (resetFlake (safeWidthOf 400)
        (genFlake false 400 800 280 ⟨1/2, 1/2, 1/2, 1/2, 1/2, 1/2, 1/2, 1/2, 1/2⟩)
        ⟨1/2, 1/2, 1/2, 1/2⟩) ⟨1/2, 1/2, 1/2, 1/2⟩).y < 0 ∧
      0 ≤ (resetFlake (safeWidthOf 400) (resetFlake (safeWidthOf 400)
        (genFlake false 400 800 280 ⟨1/2, 1/2, 1/2, 1/2, 1/2, 1/2, 1/2, 1/2, 1/2⟩)
        ⟨1/2, 1/2, 1/2, 1/2⟩) ⟨1/2, 1/2, 1/2, 1/2⟩).x ∧
      (resetFlake (safeWidthOf 400) (resetFlake (safeWidthOf 400)
        (genFlake false 400 800 280 ⟨1/2, 1/2, 1/2, 1/2, 1/2, 1/2, 1/2, 1/2, 1/2⟩)
        ⟨1/2, 1/2, 1/2, 1/2⟩) ⟨1/2, 1/2, 1/2, 1/2⟩).x ≤ safeWidthOf 400 ∧
      (resetFlake (safeWidthOf 400) (resetFlake (safeWidthOf 400)
        (genFlake false 400 800 280 ⟨1/2, 1/2, 1/2, 1/2, 1/2, 1/2, 1/2, 1/2, 1/2⟩)
        ⟨1/2, 1/2, 1/2, 1/2⟩) ⟨1/2, 1/2, 1/2, 1/2⟩).active = true :=
  double_reset_valid_state 400 _ _ _
    (by norm_num [sizeInClass, genFlake, genSize, SMALL_COUNT, MEDIUM_COUNT])
    (by norm_num [genFlake]) (by norm_num [genFlake])
    (by norm_num [ValidResetRand, unitRand])

end SnowDay
